import Mathlib

/-!
Shallow embedding of `src/rds_maintenance.py` (class `RdsMaintenance`).

The script scans the account's RDS instances for pending maintenance
actions (`do_check_mnt`), resolves for each action whether the owning
instance is the cluster writer (`instance_is_writer`), and posts one
Slack message per maintenance record (`send_to_slack`).

External calls (boto3 RDS client, Slack client) are modelled as an
environment `Env` whose fields return `Except String` values: `.error e`
models the Python call raising an exception whose printed text is `e`.
-/

namespace RdsMaint

/-- Model of Python `datetime`: calendar fields only (no timezone). -/
structure PyDateTime where
  year : Nat
  month : Nat
  day : Nat
  hour : Nat
  minute : Nat
  second : Nat
deriving DecidableEq

/-- One element of `response['DBInstances']` from `describe_db_instances()`
(only the key the scan reads: `'DBInstanceArn'`). -/
structure DBInstance where
  DBInstanceArn : String
deriving DecidableEq

/-- One element of `response['PendingMaintenanceActionDetails']`. -/
structure MntDetail where
  Action : String
  CurrentApplyDate : PyDateTime
  Description : String
deriving DecidableEq

/-- One element of `response['PendingMaintenanceActions']`. -/
structure PendingAction where
  ResourceIdentifier : String
  PendingMaintenanceActionDetails : List MntDetail
deriving DecidableEq

/-- One element of `response['DBInstances']` from
`describe_db_instances(DBInstanceIdentifier=...)` as read by
`instance_is_writer`: the `'DBClusterIdentifier'` key, which is absent
(`none`) for a non-clustered instance — reading it then raises `KeyError`. -/
structure DBInstanceDetail where
  DBClusterIdentifier : Option String
deriving DecidableEq

/-- One element of `cluster['DBClusterMembers']`. -/
structure ClusterMember where
  DBInstanceIdentifier : String
  IsClusterWriter : Bool
deriving DecidableEq

/-- One element of `response['DBClusters']`. -/
structure DBCluster where
  DBClusterMembers : List ClusterMember
deriving DecidableEq

/-- The maintenance record `data = [ins, action, str(is_writer), apply
date string, description, days2mnt]` appended to `mnt_alerts`
(`days` keeps the `timedelta` as its whole-day count, the only part
`send_to_slack` reads via `.days`). -/
structure MntRecord where
  instance_id : String
  action : String
  is_writer : String
  apply_date : String
  description : String
  days : Int
deriving DecidableEq

/-- The external world: the boto3 RDS client's calls, the Slack client's
`chat_postMessage` (indexed by call number: `none` = success, `some e` =
the call raises `e`), and `datetime.now()`. -/
structure Env where
  describe_db_instances : Except String (List DBInstance)
  describe_pending_maintenance_actions : String → Except String (List PendingAction)
  describe_db_instances_by_id : String → Except String (List DBInstanceDetail)
  describe_db_clusters : String → Except String (List DBCluster)
  chat_post : Nat → Option String
  now : PyDateTime

/-! ### Writer resolution (`instance_is_writer`, lines 95–116) -/

/-- The innermost loop `for cluster_info in cluster['DBClusterMembers']`:
the body returns on the very first member — `True` when it matches
`instance_name` and `IsClusterWriter is True`, `False` otherwise.
`none` means the loop body never ran (empty member list). -/
def scanMembers (instance_name : String) : List ClusterMember → Option Bool
  | [] => none
  | m :: _ =>
    if m.DBInstanceIdentifier == instance_name then
      if m.IsClusterWriter then some true else some false
    else
      some false

/-- The loop `for cluster in clusters['DBClusters']`; `none` means no
cluster had a member to compare. -/
def scanClusters (instance_name : String) : List DBCluster → Option Bool
  | [] => none
  | c :: rest =>
    match scanMembers instance_name c.DBClusterMembers with
    | some b => some b
    | none => scanClusters instance_name rest

/-- The loop `for instance in instances['DBInstances']`; reading the
missing `'DBClusterIdentifier'` key raises `KeyError`. -/
def scanInstDetails (env : Env) (instance_name : String) :
    List DBInstanceDetail → Except String (Option Bool)
  | [] => .ok none
  | inst :: rest =>
    match inst.DBClusterIdentifier with
    | none => .error "KeyError: DBClusterIdentifier"
    | some cluster_name => do
      let clusters ← env.describe_db_clusters cluster_name
      match scanClusters instance_name clusters with
      | some b => .ok (some b)
      | none => scanInstDetails env instance_name rest

/-- `instance_is_writer(self, instance_name)`: falls off the end and
returns `None` when no member was ever compared. -/
def instance_is_writer (env : Env) (instance_name : String) :
    Except String (Option Bool) := do
  let instances ← env.describe_db_instances_by_id instance_name
  scanInstDetails env instance_name instances

/-- Python `str` applied to the `Optional[bool]` result. -/
def pyStr : Option Bool → String
  | none => "None"
  | some true => "True"
  | some false => "False"

/-! ### Day computation (`days2mnt`, lines 80–81) -/

/-- Day number of a proleptic-Gregorian calendar date (days since
0000-03-01, Hinnant's `days_from_civil`); models the day ordinal that a
Python `datetime` subtraction differences. Valid for `1 ≤ y`. -/
def daysFromCivil (y m d : Nat) : Nat :=
  let ys := if m ≤ 2 then y - 1 else y
  let era := ys / 400
  let yoe := ys - era * 400
  let mp := (m + 9) % 12
  let doy := (153 * mp + 2) / 5 + (d - 1)
  let doe := yoe * 365 + yoe / 4 - yoe / 100 + doy
  era * 146097 + doe

/-- `strptime(..., '%m-%d-%y')` on a `%y`-formatted (two-digit) year:
POSIX pivot — 69–99 map to 1969–1999, 00–68 to 2000–2068. -/
def pivotCentury (yy : Nat) : Nat := if yy ≤ 68 then 2000 + yy else 1900 + yy

/-- Lines 80–81:
`strptime(apply.strftime("%m-%d-%y"), '%m-%d-%y') - strptime(now.strftime("%m-%d-%y"), '%m-%d-%y')`,
kept as its `.days` count. `strftime("%m-%d-%y")` keeps month, day and
`year % 100`; `strptime` re-reads the two-digit year through the POSIX
pivot. Both results are midnight datetimes, so the difference is a whole
number of days. -/
def days2mnt (apply_date now : PyDateTime) : Int :=
  (daysFromCivil (pivotCentury (apply_date.year % 100)) apply_date.month apply_date.day : Int)
    - (daysFromCivil (pivotCentury (now.year % 100)) now.month now.day : Int)

/-- Spec-side definition, for the refinement claim about
`days_until_apply` only: "the whole-day difference between the apply date
truncated to its calendar day and the current date truncated to its
calendar day". -/
def calendarDayDiff (apply_date now : PyDateTime) : Int :=
  (daysFromCivil apply_date.year apply_date.month apply_date.day : Int)
    - (daysFromCivil now.year now.month now.day : Int)

/-! ### Formatting and instance-id extraction -/

/-- `strftime("%b")` month abbreviation. -/
def monthAbbr : Nat → String
  | 1 => "Jan"
  | 2 => "Feb"
  | 3 => "Mar"
  | 4 => "Apr"
  | 5 => "May"
  | 6 => "Jun"
  | 7 => "Jul"
  | 8 => "Aug"
  | 9 => "Sep"
  | 10 => "Oct"
  | 11 => "Nov"
  | 12 => "Dec"
  | _ => ""

/-- Two-digit zero padding used by `%d`, `%H`, `%M`, `%S`. -/
def pad2 (n : Nat) : String := if n < 10 then "0" ++ toString n else toString n

/-- `strftime("%b %d %Y %H:%M:%S")` (line 86). -/
def strftimeApply (t : PyDateTime) : String :=
  monthAbbr t.month ++ " " ++ pad2 t.day ++ " " ++ toString t.year ++ " "
    ++ pad2 t.hour ++ ":" ++ pad2 t.minute ++ ":" ++ pad2 t.second

/-- Python `s.split(c)` on a character separator, over the char list:
splits at every occurrence, keeping empty segments. -/
def splitChars (c : Char) : List Char → List (List Char)
  | [] => [[]]
  | x :: xs =>
    match splitChars c xs with
    | [] => [[x]]
    | y :: ys => if x == c then [] :: y :: ys else (x :: y) :: ys

/-- Python `s.split(":")`. -/
def pySplit (s : String) : List String :=
  (splitChars ':' s.data).map String.mk

/-- Line 78: `ins = (resource_identifier.split(":"))[6]`; fewer than 7
segments raises `IndexError`. -/
def extract_ins (resource_identifier : String) : Except String String :=
  let parts := pySplit resource_identifier
  if h : 6 < parts.length then .ok (parts.get ⟨6, h⟩)
  else .error "IndexError: list index out of range"

/-- Lines 82–89: one record per action detail. -/
def mkRecord (ins : String) (isw : Option Bool) (mnt_info : MntDetail)
    (now : PyDateTime) : MntRecord :=
  { instance_id := ins
  , action := mnt_info.Action
  , is_writer := pyStr isw
  , apply_date := strftimeApply mnt_info.CurrentApplyDate
  , description := mnt_info.Description
  , days := days2mnt mnt_info.CurrentApplyDate now }

/-! ### The scan (`do_check_mnt`, lines 69–93) -/

/-- The loop `for mnt_info in instance_pending_mnt['PendingMaintenanceActionDetails']`;
`instance_is_writer` is called once per detail (line 85). -/
def scanDetails (env : Env) (ins : String) :
    List MntDetail → Except String (List MntRecord)
  | [] => .ok []
  | mnt_info :: rest => do
    let isw ← instance_is_writer env ins
    let more ← scanDetails env ins rest
    .ok (mkRecord ins isw mnt_info env.now :: more)

/-- One element of the loop
`for instance_pending_mnt in instances_pending_mnt['PendingMaintenanceActions']`:
extract `ins` (line 78), then walk the detail list. -/
def scanPendingAction (env : Env) (pa : PendingAction) :
    Except String (List MntRecord) := do
  let ins ← extract_ins pa.ResourceIdentifier
  scanDetails env ins pa.PendingMaintenanceActionDetails

/-- The loop over `['PendingMaintenanceActions']`. -/
def scanPendingActions (env : Env) :
    List PendingAction → Except String (List MntRecord)
  | [] => .ok []
  | pa :: rest => do
    let recs ← scanPendingAction env pa
    let more ← scanPendingActions env rest
    .ok (recs ++ more)

/-- The loop `for instance in rds_instances['DBInstances']` with the
line-76 guard `if instances_pending_mnt['PendingMaintenanceActions']:`. -/
def scanInstances (env : Env) : List DBInstance → Except String (List MntRecord)
  | [] => .ok []
  | inst :: rest => do
    let instances_pending_mnt ← env.describe_pending_maintenance_actions inst.DBInstanceArn
    let recs ← if instances_pending_mnt.isEmpty then pure []
               else scanPendingActions env instances_pending_mnt
    let more ← scanInstances env rest
    .ok (recs ++ more)

/-- The record-collecting part of `do_check_mnt`'s `try` block
(lines 70–90): builds `mnt_alerts`. -/
def scan (env : Env) : Except String (List MntRecord) := do
  let rds_instances ← env.describe_db_instances
  scanInstances env rds_instances

/-! ### The notifier (`send_to_slack`, lines 118–187) -/

def highPriorityUrl : String :=
  "https://api.slack.com/img/blocks/bkb_template_images/highpriority.png"

def mediumPriorityUrl : String :=
  "https://api.slack.com/img/blocks/bkb_template_images/mediumpriority.png"

/-- One Slack block of the `blocks=` payload. -/
inductive Block where
  | divider : Block
  | contextBlock (image_url alt_text mrkdwn : String) : Block
  | sectionText (text : String) : Block
  | sectionFields (fields : List String) : Block
deriving DecidableEq

/-- Lines 128–133: the only branching business rule. -/
def buildPriority (days : Int) : String × String :=
  if days ≤ 7 then (highPriorityUrl, "High Priority")
  else (mediumPriorityUrl, "Medium Priority")

/-- Lines 134–183: the `msg` block list for one record. -/
def buildMsg (mnt : MntRecord) : List Block :=
  let p := buildPriority mnt.days
  [ .divider
  , .contextBlock p.1 p.2 ("*" ++ p.2 ++ "*")
  , .sectionText ("`" ++ mnt.instance_id ++ "`")
  , .sectionFields
      [ "*Action:*\n" ++ mnt.action
      , "*IsWriter:*\n" ++ mnt.is_writer
      , "*ForcedApplyDate:*\n" ++ mnt.apply_date
      , "*Description:*\n" ++ mnt.description ]
  , .divider ]

/-- The loop `for mnt in mnt_alerts` with `client.chat_postMessage(...)`:
returns the messages whose posting was attempted (a failed attempt
included) and the exception that aborted the loop, if any. `k` counts
the post calls already made. -/
def sendLoop (env : Env) (k : Nat) : List MntRecord → List (List Block) × Option String
  | [] => ([], none)
  | mnt :: rest =>
    let msg := buildMsg mnt
    match env.chat_post k with
    | some e => ([msg], some e)
    | none =>
      let r := sendLoop env (k + 1) rest
      (msg :: r.1, r.2)

/-- `send_to_slack(self, mnt_alerts)`. -/
def send_to_slack (env : Env) (mnt_alerts : List MntRecord) :
    List (List Block) × Option String :=
  sendLoop env 0 mnt_alerts

/-- The body of `do_check_mnt`'s `try` block: scan, then notify. An
error while scanning aborts before any message is attempted. -/
def scan_and_notify (env : Env) : List (List Block) × Option String :=
  match scan env with
  | .error e => ([], some e)
  | .ok mnt_alerts => send_to_slack env mnt_alerts

/-- `do_check_mnt(self)` (lines 63–93): the single
`except Exception as error: print(error)` turns the aborting exception,
when there is one, into exactly one printed line; the method always
returns normally. Result: (attempted messages, printed lines). -/
def do_check_mnt (env : Env) : List (List Block) × List String :=
  match scan_and_notify env with
  | (msgs, some e) => (msgs, [e])
  | (msgs, none) => (msgs, [])

end RdsMaint

namespace RdsMaint

deriving instance DecidableEq for Except

/-! ### Concrete fixtures used to exercise the theorems on closed inputs -/

/-- An environment where every call succeeds with an empty fleet. -/
def env0 : Env :=
  { describe_db_instances := .ok []
  , describe_pending_maintenance_actions := fun _ => .ok []
  , describe_db_instances_by_id := fun _ => .ok []
  , describe_db_clusters := fun _ => .ok []
  , chat_post := fun _ => none
  , now := ⟨2026, 10, 12, 9, 0, 0⟩ }

def arnA : String := "arn:aws:rds:eu-west-1:123456789012:db:db-1"

def arnB : String := "arn:aws:rds:eu-west-1:123456789012:db:db-2"

/-- A two-member cluster whose first member `db-1` is the writer. -/
def clusterAB : DBCluster := ⟨[⟨"db-1", true⟩, ⟨"db-2", false⟩]⟩

def envC1 : Env :=
  { env0 with
    describe_db_instances_by_id := fun _ => .ok [⟨some "cluster-1"⟩]
  , describe_db_clusters := fun _ => .ok [clusterAB] }

def envC4 : Env :=
  { env0 with
    describe_db_instances := .ok [⟨arnA⟩, ⟨arnB⟩]
  , describe_pending_maintenance_actions := fun r =>
      if r == arnA then
        .ok [⟨arnA, [⟨"system-update", ⟨2026, 10, 19, 3, 0, 0⟩, "OS patch"⟩]⟩]
      else .error "An error occurred (Throttling)"
  , describe_db_instances_by_id := fun _ => .ok [⟨some "cluster-1"⟩]
  , describe_db_clusters := fun _ => .ok [clusterAB] }

def recA : MntRecord :=
  ⟨"db-1", "system-update", "True", "Oct 19 2026 03:00:00", "OS patch", 7⟩

def recB : MntRecord :=
  ⟨"db-2", "db-upgrade", "False", "Nov 20 2026 03:00:00", "Engine upgrade", 39⟩

def recC : MntRecord :=
  ⟨"db-3", "hardware-maintenance", "None", "Nov 20 2026 03:00:00", "Hardware", 39⟩

/-- Every Slack post raises. -/
def envC5 : Env := { env0 with chat_post := fun _ => some "SlackApiError" }

/-- The second Slack post (index 1) raises; others succeed. -/
def envC5b : Env :=
  { env0 with chat_post := fun k => if k == 1 then some "SlackApiError" else none }

def paC6 : PendingAction :=
  ⟨"arn:aws:rds:eu-west-1:123456789012:db:db-1",
   [⟨"system-update", ⟨2026, 10, 19, 3, 0, 0⟩, "OS patch"⟩]⟩

def envC6 : Env :=
  { env0 with
    describe_db_instances_by_id := fun _ => .ok [⟨some "cluster-1"⟩]
  , describe_db_clusters := fun _ => .ok [clusterAB] }

def recC6 : MntRecord :=
  mkRecord "db-1" (some true) ⟨"system-update", ⟨2026, 10, 19, 3, 0, 0⟩, "OS patch"⟩ env0.now

def paA : PendingAction :=
  ⟨arnA, [⟨"system-update", ⟨2026, 10, 19, 3, 0, 0⟩, "OS patch"⟩,
          ⟨"db-upgrade", ⟨2026, 11, 20, 3, 0, 0⟩, "Engine upgrade"⟩]⟩

def paB : PendingAction :=
  ⟨arnB, [⟨"hardware-maintenance", ⟨2026, 10, 15, 3, 0, 0⟩, "Hardware"⟩]⟩

def envC7 : Env :=
  { env0 with
    describe_db_instances := .ok [⟨arnA⟩, ⟨arnB⟩]
  , describe_pending_maintenance_actions := fun r =>
      if r == arnA then .ok [paA] else .ok [paB]
  , describe_db_instances_by_id := fun _ => .ok [⟨some "cluster-1"⟩]
  , describe_db_clusters := fun _ => .ok [clusterAB] }

def PC7 : DBInstance → List PendingAction :=
  fun i => if i.DBInstanceArn == arnA then [paA] else [paB]

def IC7 : PendingAction → String :=
  fun pa => if pa.ResourceIdentifier == arnA then "db-1" else "db-2"

def WC7 : PendingAction → Option Bool :=
  fun pa => if pa.ResourceIdentifier == arnA then some true else some false

/-- The second listed instance has no pending actions, the first has one. -/
def envC8 : Env :=
  { env0 with
    describe_db_instances := .ok [⟨arnB⟩, ⟨arnA⟩]
  , describe_pending_maintenance_actions := fun r =>
      if r == arnA then .ok [] else .ok [paB]
  , describe_db_instances_by_id := fun _ => .ok [⟨some "cluster-1"⟩]
  , describe_db_clusters := fun _ => .ok [clusterAB] }

/-- The by-identifier instance lookup returns an empty `DBInstances` list. -/
def envC9 : Env := { env0 with describe_db_instances_by_id := fun _ => .ok [] }

/-! ### Helper lemmas -/

theorem ok_bind {α β : Type} (a : α) (f : α → Except String β) :
    (Except.ok a >>= f) = f a := rfl

theorem error_bind {α β : Type} (e : String) (f : α → Except String β) :
    ((Except.error e : Except String α) >>= f) = .error e := rfl

theorem pivotCentury_mod (y : Nat) (h1 : 1969 ≤ y) (h2 : y ≤ 2068) :
    pivotCentury (y % 100) = y := by
  unfold pivotCentury
  split <;> omega

end RdsMaint

namespace RdsMaint

theorem sendLoop_fail (env : Env) (e : String) :
    ∀ (alerts : List MntRecord) (k N : Nat),
      env.chat_post (k + N) = some e →
      (∀ j, j < N → env.chat_post (k + j) = none) →
      N < alerts.length →
      sendLoop env k alerts = ((alerts.take (N + 1)).map buildMsg, some e) := by
  intro alerts
  induction alerts with
  | nil =>
    intro k N _ _ hlen
    simp at hlen
  | cons mnt rest ih =>
    intro k N hfail hok hlen
    cases N with
    | zero =>
      have h0 : env.chat_post k = some e := by simpa using hfail
      unfold sendLoop
      rw [h0]
      rfl
    | succ n =>
      have h0 : env.chat_post k = none := by simpa using hok 0 (Nat.succ_pos n)
      have hfail2 : env.chat_post (k + 1 + n) = some e := by
        have hkn : k + 1 + n = k + (n + 1) := by omega
        rw [hkn]; exact hfail
      have hok2 : ∀ j, j < n → env.chat_post (k + 1 + j) = none := by
        intro j hj
        have hkj : k + 1 + j = k + (j + 1) := by omega
        rw [hkj]; exact hok (j + 1) (by omega)
      have hlen2 : n < rest.length := by simpa using hlen
      unfold sendLoop
      rw [h0, ih (k + 1) n hfail2 hok2 hlen2]
      rfl

theorem scanDetails_ids (env : Env) (ins : String) :
    ∀ (l : List MntDetail) (recs : List MntRecord),
      scanDetails env ins l = .ok recs → ∀ r ∈ recs, r.instance_id = ins := by
  intro l
  induction l with
  | nil =>
    intro recs h r hr
    unfold scanDetails at h
    cases h
    simp at hr
  | cons mi rest ih =>
    intro recs h r hr
    unfold scanDetails at h
    cases hw : instance_is_writer env ins with
    | error e => rw [hw, error_bind] at h; cases h
    | ok isw =>
      rw [hw, ok_bind] at h
      cases hm : scanDetails env ins rest with
      | error e => rw [hm, error_bind] at h; cases h
      | ok more =>
        rw [hm, ok_bind] at h
        cases h
        cases hr with
        | head => rfl
        | tail b htail => exact ih more hm r htail

theorem scanDetails_map (env : Env) (ins : String) (w : Option Bool)
    (hw : instance_is_writer env ins = .ok w) :
    ∀ l : List MntDetail,
      scanDetails env ins l = .ok (l.map fun mi => mkRecord ins w mi env.now) := by
  intro l
  induction l with
  | nil => rfl
  | cons mi rest ih =>
    unfold scanDetails
    rw [hw, ok_bind, ih, ok_bind]
    rfl

theorem scanPendingActions_map (env : Env) (I : PendingAction → String)
    (W : PendingAction → Option Bool) :
    ∀ pl : List PendingAction,
      (∀ pa ∈ pl, extract_ins pa.ResourceIdentifier = .ok (I pa)) →
      (∀ pa ∈ pl, instance_is_writer env (I pa) = .ok (W pa)) →
      scanPendingActions env pl =
        .ok (pl.flatMap fun pa => pa.PendingMaintenanceActionDetails.map
          fun mi => mkRecord (I pa) (W pa) mi env.now) := by
  intro pl
  induction pl with
  | nil => intro _ _; rfl
  | cons pa rest ih =>
    intro hI hW
    unfold scanPendingActions scanPendingAction
    rw [hI pa (by simp), ok_bind,
      scanDetails_map env (I pa) (W pa) (hW pa (by simp)) pa.PendingMaintenanceActionDetails,
      ok_bind, ih (fun q hq => hI q (by simp [hq])) (fun q hq => hW q (by simp [hq])), ok_bind]
    simp [List.flatMap_cons]

theorem scanInstances_map (env : Env) (P : DBInstance → List PendingAction)
    (I : PendingAction → String) (W : PendingAction → Option Bool) :
    ∀ il : List DBInstance,
      (∀ i ∈ il, env.describe_pending_maintenance_actions i.DBInstanceArn = .ok (P i)) →
      (∀ i ∈ il, ∀ pa ∈ P i, extract_ins pa.ResourceIdentifier = .ok (I pa)) →
      (∀ i ∈ il, ∀ pa ∈ P i, instance_is_writer env (I pa) = .ok (W pa)) →
      scanInstances env il =
        .ok (il.flatMap fun i => (P i).flatMap fun pa =>
          pa.PendingMaintenanceActionDetails.map
            fun mi => mkRecord (I pa) (W pa) mi env.now) := by
  intro il
  induction il with
  | nil => intro _ _ _; rfl
  | cons i rest ih =>
    intro hP hI hW
    have ihr := ih (fun a ha => hP a (by simp [ha])) (fun a ha => hI a (by simp [ha]))
      (fun a ha => hW a (by simp [ha]))
    unfold scanInstances
    rw [hP i (by simp), ok_bind]
    by_cases he : (P i).isEmpty
    · rw [if_pos he]
      have hnil : P i = [] := by
        cases hpi : P i
        · rfl
        · rw [hpi] at he; simp [List.isEmpty] at he
      simp [pure, Except.pure, ok_bind, ihr, hnil, List.flatMap_cons]
    · rw [if_neg he,
        scanPendingActions_map env I W (P i) (hI i (by simp)) (hW i (by simp))]
      simp [ok_bind, ihr, List.flatMap_cons]

end RdsMaint

namespace RdsMaint

/-! ### The claims -/

/-- C1: against a cluster with a non-empty member list, `instance_is_writer`
returns true exactly when `instance_name` is the first entry of the member
list and that entry's writer flag is true; in every other case it returns
false — the result depends only on the first member (`mrest` is arbitrary),
so the scan never inspects members after the first one compared. -/
theorem c1_writer_first_member (env : Env) (instance_name : String)
    (inst : DBInstanceDetail) (irest : List DBInstanceDetail)
    (cluster_name : String) (c : DBCluster) (crest : List DBCluster)
    (m : ClusterMember) (mrest : List ClusterMember)
    (h1 : env.describe_db_instances_by_id instance_name = .ok (inst :: irest))
    (h2 : inst.DBClusterIdentifier = some cluster_name)
    (h3 : env.describe_db_clusters cluster_name = .ok (c :: crest))
    (h4 : c.DBClusterMembers = m :: mrest) :
    instance_is_writer env instance_name =
      .ok (some (m.DBInstanceIdentifier == instance_name && m.IsClusterWriter)) := by
  unfold instance_is_writer
  rw [h1]
  show scanInstDetails env instance_name (inst :: irest) = _
  unfold scanInstDetails
  rw [h2]
  simp only []
  rw [h3]
  show (match scanClusters instance_name (c :: crest) with
        | some b => Except.ok (some b)
        | none => scanInstDetails env instance_name irest) = _
  unfold scanClusters
  rw [h4]
  unfold scanMembers
  cases hb : m.DBInstanceIdentifier == instance_name <;>
    cases hw : m.IsClusterWriter <;> simp_all

/-- Witness for C1: `db-1` is the first member of its cluster and is the
writer, so `instance_is_writer` returns `True` (even though a second
member exists). -/
theorem c1_witness : instance_is_writer envC1 "db-1" = .ok (some true) := by
  have h := c1_writer_first_member envC1 "db-1" ⟨some "cluster-1"⟩ [] "cluster-1"
    clusterAB [] ⟨"db-1", true⟩ [⟨"db-2", false⟩] rfl rfl rfl rfl
  exact h.trans rfl

/-- C2: the message built for a record carries the High-Priority context
block (high-priority icon and label) exactly when `days_until_apply ≤ 7`
(past-due dates included), and the Medium-Priority block exactly when
`days_until_apply > 7`. -/
theorem c2_priority (mnt : MntRecord) :
    ((buildMsg mnt).get? 1 =
        some (.contextBlock highPriorityUrl "High Priority" "*High Priority*")
      ↔ mnt.days ≤ 7)
    ∧ ((buildMsg mnt).get? 1 =
        some (.contextBlock mediumPriorityUrl "Medium Priority" "*Medium Priority*")
      ↔ 7 < mnt.days) := by
  by_cases h : mnt.days ≤ 7 <;>
    simp [buildMsg, buildPriority, h, highPriorityUrl, mediumPriorityUrl]
  all_goals omega

/-- C3 (counterexample): the claim "for every apply date and every scan
time, `days_until_apply` equals the whole-day difference of the truncated
calendar days" fails: the code round-trips the dates through the
two-digit-year format `%m-%d-%y`, so an apply date in 2070 is re-read as
1970 and the computed day count (-20738) differs from the calendar-day
difference (15787). -/
theorem c3_counterexample :
    days2mnt ⟨2070, 1, 1, 0, 0, 0⟩ ⟨2026, 10, 12, 0, 0, 0⟩ ≠
      calendarDayDiff ⟨2070, 1, 1, 0, 0, 0⟩ ⟨2026, 10, 12, 0, 0, 0⟩ := by
  decide

/-- C3 (amended): when both years lie in the POSIX two-digit-year pivot
window 1969–2068, `days_until_apply` equals the whole-day difference
between the apply date's calendar day and the current calendar day; and,
unconditionally for every pair of datetimes, changing only the
time-of-day of either never changes the computed day count. -/
theorem c3_days_truncation (a n : PyDateTime) :
    (1969 ≤ a.year → a.year ≤ 2068 → 1969 ≤ n.year → n.year ≤ 2068 →
      days2mnt a n = calendarDayDiff a n) ∧
    ∀ h m s h2 m2 s2,
      days2mnt ⟨a.year, a.month, a.day, h, m, s⟩ ⟨n.year, n.month, n.day, h2, m2, s2⟩
        = days2mnt a n := by
  constructor
  · intro ha1 ha2 hn1 hn2
    unfold days2mnt calendarDayDiff
    rw [pivotCentury_mod a.year ha1 ha2, pivotCentury_mod n.year hn1 hn2]
  · intro h m s h2 m2 s2
    rfl

/-- Witness for C3: an apply date of today 23:59:59 against a scan time of
today 00:00:01 — the day count equals the calendar-day difference (0). -/
theorem c3_witness :
    days2mnt ⟨2026, 10, 12, 23, 59, 59⟩ ⟨2026, 10, 12, 0, 0, 1⟩
      = calendarDayDiff ⟨2026, 10, 12, 23, 59, 59⟩ ⟨2026, 10, 12, 0, 0, 1⟩ :=
  (c3_days_truncation ⟨2026, 10, 12, 23, 59, 59⟩ ⟨2026, 10, 12, 0, 0, 1⟩).1
    (by decide) (by decide) (by decide) (by decide)

/-- C4: if any error is raised anywhere during the scan phase (instance
listing, pending-maintenance lookup, id extraction, or writer resolution),
then zero chat messages are attempted — records already collected in
`mnt_alerts` included — exactly one error line is printed, and the run
ends normally. -/
theorem c4_scan_error_no_messages (env : Env) (e : String)
    (h : scan env = .error e) :
    do_check_mnt env = ([], [e]) := by
  unfold do_check_mnt scan_and_notify
  rw [h]

/-- Witness for C4: the first instance's pending maintenance is collected,
then the second instance's lookup raises — no message is sent and the one
error line is printed. -/
theorem c4_witness : do_check_mnt envC4 = ([], ["An error occurred (Throttling)"]) :=
  c4_scan_error_no_messages envC4 "An error occurred (Throttling)" rfl

/-- C5 (counterexample): the claim "a failure to deliver one message does
not prevent attempting the next" fails: with two records and the first
post raising, only one message is ever attempted, and the second record's
message is not among the attempts. -/
theorem c5_counterexample :
    (send_to_slack envC5 [recA, recB]).1.length = 1 ∧
    buildMsg recB ∉ (send_to_slack envC5 [recA, recB]).1 := by
  decide

/-- C5 (amended): a failure to deliver record N's message aborts the
notifier loop — messages for records 0..N are attempted (the failing one
included) and records N+1..end are never attempted; the exception
propagates to `do_check_mnt`'s handler. -/
theorem c5_send_failure_aborts (env : Env) (mnt_alerts : List MntRecord)
    (N : Nat) (e : String)
    (hfail : env.chat_post N = some e)
    (hok : ∀ j, j < N → env.chat_post j = none)
    (hlen : N < mnt_alerts.length) :
    send_to_slack env mnt_alerts = ((mnt_alerts.take (N + 1)).map buildMsg, some e) := by
  unfold send_to_slack
  exact sendLoop_fail env e mnt_alerts 0 N (by simpa using hfail)
    (fun j hj => by simpa using hok j hj) hlen

/-- Witness for C5 (amended): three records, the second post raises — the
first two messages are attempted, the third is not. -/
theorem c5_witness :
    send_to_slack envC5b [recA, recB, recC] =
      ([buildMsg recA, buildMsg recB], some "SlackApiError") := by
  have h := c5_send_failure_aborts envC5b [recA, recB, recC] 1 "SlackApiError" rfl
    (fun j hj => by interval_cases j; rfl) (by simp)
  exact h.trans rfl

/-- C6: for a resource identifier with at least 7 colon-delimited
segments, every maintenance record produced for that action entry stores
as `instance_id` the 7th segment (zero-based index 6). -/
theorem c6_instance_id_extraction (env : Env) (pa : PendingAction)
    (recs : List MntRecord)
    (h7 : 6 < (pySplit pa.ResourceIdentifier).length)
    (hok : scanPendingAction env pa = .ok recs) :
    ∀ r ∈ recs, r.instance_id = (pySplit pa.ResourceIdentifier).get ⟨6, h7⟩ := by
  unfold scanPendingAction extract_ins at hok
  rw [dif_pos h7, ok_bind] at hok
  exact scanDetails_ids env _ pa.PendingMaintenanceActionDetails recs hok

/-- Witness for C6: the ARN `arn:aws:rds:eu-west-1:123456789012:db:db-1`
yields the record instance id `db-1`, its 7th colon-delimited segment. -/
theorem c6_witness : recC6.instance_id = "db-1" := by
  have h := c6_instance_id_extraction envC6 paC6 [recC6] (by decide) rfl recC6 (by simp)
  rw [h]
  rfl

/-- C7: when every provider call succeeds, the scan returns exactly one
record per (action entry, action-detail) pair across all instances, in the
provider's listing order — instances, then action entries, then details —
with no sorting, deduplication or filtering. -/
theorem c7_scan_order (env : Env) (insts : List DBInstance)
    (P : DBInstance → List PendingAction) (I : PendingAction → String)
    (W : PendingAction → Option Bool)
    (h0 : env.describe_db_instances = .ok insts)
    (hP : ∀ i ∈ insts, env.describe_pending_maintenance_actions i.DBInstanceArn = .ok (P i))
    (hI : ∀ i ∈ insts, ∀ pa ∈ P i, extract_ins pa.ResourceIdentifier = .ok (I pa))
    (hW : ∀ i ∈ insts, ∀ pa ∈ P i, instance_is_writer env (I pa) = .ok (W pa)) :
    scan env =
      .ok (insts.flatMap fun i => (P i).flatMap fun pa =>
        pa.PendingMaintenanceActionDetails.map
          fun mi => mkRecord (I pa) (W pa) mi env.now) := by
  unfold scan
  rw [h0, ok_bind]
  exact scanInstances_map env P I W insts hP hI hW

/-- Witness for C7: two instances — the first with one action entry of two
details, the second with one action entry of one detail — produce exactly
three records in listing order. -/
theorem c7_witness :
    scan envC7 = .ok
      [ ⟨"db-1", "system-update", "True", "Oct 19 2026 03:00:00", "OS patch", 7⟩
      , ⟨"db-1", "db-upgrade", "True", "Nov 20 2026 03:00:00", "Engine upgrade", 39⟩
      , ⟨"db-2", "hardware-maintenance", "False", "Oct 15 2026 03:00:00", "Hardware", 3⟩ ] := by
  have h := c7_scan_order envC7 [⟨arnA⟩, ⟨arnB⟩] PC7 IC7 WC7 rfl
    (by decide) (by decide) (by decide)
  exact h.trans rfl

/-- C8: every instance whose pending-maintenance lookup returns an empty
action list, wherever it appears in the listing (`pre` before it, `rest`
after it), contributes no records — the scan with it equals the scan
without it — and, when the provider lists exactly those instances, the
whole run (messages and printed lines) equals the run over the remaining
instances, so no message is sent for it. -/
theorem c8_empty_actions (env : Env) (i : DBInstance) (pre rest : List DBInstance)
    (hpend : env.describe_pending_maintenance_actions i.DBInstanceArn = .ok []) :
    scanInstances env (pre ++ i :: rest) = scanInstances env (pre ++ rest) ∧
    (env.describe_db_instances = .ok (pre ++ i :: rest) →
      do_check_mnt env =
        (match scanInstances env (pre ++ rest) with
         | .error e => ([], [e])
         | .ok mnt_alerts =>
           match send_to_slack env mnt_alerts with
           | (msgs, some e) => (msgs, [e])
           | (msgs, none) => (msgs, []))) := by
  have h1 : ∀ p : List DBInstance,
      scanInstances env (p ++ i :: rest) = scanInstances env (p ++ rest) := by
    intro p
    induction p with
    | nil =>
      simp only [List.nil_append]
      show (do
        let instances_pending_mnt ← env.describe_pending_maintenance_actions i.DBInstanceArn
        let recs ← if instances_pending_mnt.isEmpty then pure []
                   else scanPendingActions env instances_pending_mnt
        let more ← scanInstances env rest
        Except.ok (recs ++ more)) = scanInstances env rest
      rw [hpend]
      cases h2 : scanInstances env rest <;> simp [h2, bind, Except.bind, pure, Except.pure]
    | cons q p ih =>
      simp only [List.cons_append]
      unfold scanInstances
      simp only [ih]
  refine ⟨h1 pre, fun hdbi => ?_⟩
  have hscan : scan env = scanInstances env (pre ++ rest) := by
    have h0 : scan env = scanInstances env (pre ++ i :: rest) := by
      unfold scan
      rw [hdbi]
      rfl
    rw [h0, h1 pre]
  unfold do_check_mnt scan_and_notify
  rw [hscan]
  cases h2 : scanInstances env (pre ++ rest) <;> rfl

/-- Witness for C8: the second listed instance has no pending actions; the
run's only message is the first instance's, and nothing is printed. -/
theorem c8_witness :
    do_check_mnt envC8 =
      ([buildMsg ⟨"db-2", "hardware-maintenance", "False",
                  "Oct 15 2026 03:00:00", "Hardware", 3⟩], []) := by
  have h := (c8_empty_actions envC8 ⟨arnA⟩ [⟨arnB⟩] [] rfl).2 rfl
  exact h.trans rfl

/-- C9: when the cluster lookup yields an empty member list — or the
cluster or instance list itself is empty — `instance_is_writer` falls off
its loops and returns `None`; the record built from that result stores the
string "None", and the message's IsWriter field reads "None", not
"False". -/
theorem c9_writer_none (env : Env) (nm : String)
    (h : env.describe_db_instances_by_id nm = .ok [] ∨
      ∃ inst cn, env.describe_db_instances_by_id nm = .ok [inst] ∧
        inst.DBClusterIdentifier = some cn ∧
        (env.describe_db_clusters cn = .ok [] ∨
          ∃ c, env.describe_db_clusters cn = .ok [c] ∧ c.DBClusterMembers = [])) :
    instance_is_writer env nm = .ok none ∧
    (∀ mi now2, (mkRecord nm none mi now2).is_writer = "None") ∧
    (∀ mi now2, (buildMsg (mkRecord nm none mi now2)).get? 3 =
      some (.sectionFields
        [ "*Action:*\n" ++ mi.Action
        , "*IsWriter:*\nNone"
        , "*ForcedApplyDate:*\n" ++ strftimeApply mi.CurrentApplyDate
        , "*Description:*\n" ++ mi.Description ])) := by
  refine ⟨?_, fun mi now2 => rfl, fun mi now2 => rfl⟩
  unfold instance_is_writer
  rcases h with h | ⟨inst, cn, h1, h2, hc⟩
  · rw [h]
    rfl
  · rw [h1]
    show scanInstDetails env nm [inst] = _
    unfold scanInstDetails
    rw [h2]
    simp only []
    rcases hc with h3 | ⟨c, h3, h4⟩
    · rw [h3]
      rfl
    · rw [h3]
      show (match scanClusters nm [c] with
            | some b => Except.ok (some b)
            | none => scanInstDetails env nm []) = _
      unfold scanClusters
      rw [h4]
      rfl

/-- Witness for C9: an empty by-identifier instance list makes
`instance_is_writer` return `None`, and the record built from it stores
"None". -/
theorem c9_witness :
    instance_is_writer envC9 "db-9" = .ok none ∧
    (mkRecord "db-9" none ⟨"system-update", ⟨2026, 10, 19, 3, 0, 0⟩, "OS patch"⟩
      env0.now).is_writer = "None" := by
  have h := c9_writer_none envC9 "db-9" (Or.inl rfl)
  exact ⟨h.1, h.2.1 _ _⟩

/-- C10: `do_check_mnt` never propagates an exception — for every
behavior of the cloud and chat providers it returns normally, its messages
are exactly those the scan-and-notify sequence attempted, and the aborting
exception, when there is one, is printed as exactly one line (at most one
line is ever printed). -/
theorem c10_no_propagation (env : Env) :
    (do_check_mnt env).1 = (scan_and_notify env).1 ∧
    (do_check_mnt env).2 =
      (match (scan_and_notify env).2 with
       | some e => [e]
       | none => []) ∧
    (do_check_mnt env).2.length ≤ 1 := by
  unfold do_check_mnt
  obtain ⟨msgs, err⟩ := scan_and_notify env
  cases err <;> simp

end RdsMaint
